import Mathlib

/-!
Shallow embedding of the hqu-school-mcp repository (files
src/hqu_school_mcp/school.py, sends.py, server.py) and proofs about it.

The repository is an MCP glue layer around two HTTP backends.  The parts
embedded here are the pure/deterministic kernels the claims are about:
the academic-period resolvers, the JWT token cache step, header assembly,
request-parameter assembly with date-based defaulting, the uniform error
JSON produced by the operation wrappers, and the import-time configuration
checks.  Network I/O is modelled by passing the outcome of the outbound
call (an `Except` value) explicitly; the mutable `_jwt_token` slot is
modelled by explicit state passing.
-/

namespace HquSchoolMcp

/-- Fragment of Python/JSON values used by the identity backend exchange in
`school.py`: `None`, strings, and objects (dicts).  `Json.null` plays the
role of Python `None`, both as an absent value and as the reset state of
the `_jwt_token` slot. -/
inductive Json where
  | null : Json
  | str (s : String) : Json
  | obj (fields : List (String × Json)) : Json

/-- Python `d.get(k)`: value of key `k`, or `None` when absent.  Attribute
access on a non-dict is modelled as `null` (the backend contract fixes the
relevant fields to objects). -/
def Json.get : Json → String → Json
  | .obj fs, k =>
    match fs.lookup k with
    | some v => v
    | none => .null
  | _, _ => .null

/-- Python `d.get(k, default)`: the default is used only when the key is
absent. -/
def Json.getD : Json → String → Json → Json
  | .obj fs, k, d =>
    match fs.lookup k with
    | some v => v
    | none => d
  | _, _, d => d

/-- Python truthiness on this JSON fragment: `None` is falsy, a string is
truthy iff non-empty, a dict is truthy iff non-empty. -/
def Json.truthy : Json → Bool
  | .null => false
  | .str s => !s.isEmpty
  | .obj fs => !fs.isEmpty

/-- Python `x is None`. -/
def Json.isNull : Json → Bool
  | .null => true
  | _ => false

/-- Python `x == "lit"` where `x` is an arbitrary value: true only when `x`
is that very string. -/
def Json.eqStr : Json → String → Bool
  | .str s, t => s == t
  | _, _ => false

/-- Truthiness of an `os.getenv` result (`str` or `None`): `not openid` in
Python is true when the variable is absent or the empty string. -/
def strTruthy : Option String → Bool
  | none => false
  | some s => !s.isEmpty

/-- `SchoolInfoService._get_current_semester` (school.py lines 53-78):
from the current year and month compute the school year string and the
semester marker, `"一"` (first) or `"二"` (second). -/
def SchoolInfoService.getCurrentSemester (year month : Nat) : String × String :=
  let schoolYear :=
    if 9 ≤ month then toString year ++ "-" ++ toString (year + 1)
    else toString (year - 1) ++ "-" ++ toString year
  let semesterNum := if 2 ≤ month ∧ month ≤ 7 then "二" else "一"
  (schoolYear, semesterNum)

/-- `StudentDataService._get_current_semester` (sends.py lines 39-57):
the academic year and a numeric semester, joined as `"YYYY-YYYY-n"`. -/
def StudentDataService.getCurrentSemester (year month : Nat) : String :=
  let academicYear :=
    if 9 ≤ month then toString year ++ "-" ++ toString (year + 1)
    else toString (year - 1) ++ "-" ++ toString year
  let semesterNum : Nat := if 2 ≤ month ∧ month ≤ 7 then 2 else 1
  academicYear ++ "-" ++ toString semesterNum

/-- Outcome of one `_get_jwt_token` call (school.py lines 80-112).
`ok` is a normal return (the returned value is whatever the `_jwt_token`
slot holds, possibly `null`); `configError` is the `ValueError` raised when
`OPENID` is missing; `httpError` is the exception propagated by
`raise_for_status`; `authError` is the `ValueError` raised when the
response fails the success check, carrying the backend message used in it. -/
inductive TokenResult where
  | ok (value : Json) : TokenResult
  | configError : TokenResult
  | httpError : TokenResult
  | authError (msg : Json) : TokenResult

/-- State transition of one `_get_jwt_token` call: the (raised-or-returned)
result, the new content of the `_jwt_token` slot, and whether an
authentication network call was made. -/
structure TokenStep where
  result : TokenResult
  newCache : Json
  networkCalled : Bool

/-- The success check of `_get_jwt_token` (school.py line 107), in the
failing direction: `data.get("code") != "0000" or not data.get("data") or
not data.get("data").get("restToken")`. -/
def authCheckFails (d : Json) : Bool :=
  !((d.get "code").eqStr "0000") || !(d.get "data").truthy ||
    !((d.get "data").get "restToken").truthy

/-- Token extraction of `_get_jwt_token` (school.py line 110):
`data.get("data").get("restToken").get("token")`. -/
def extractToken (d : Json) : Json :=
  ((d.get "data").get "restToken").get "token"

/-- `SchoolInfoService._get_jwt_token` (school.py lines 80-112).  `cache` is
the current `_jwt_token` slot, `refresh` the `refresh` flag, `openid` the
value of `os.getenv("OPENID")`, and `net` the outcome of the outbound
authentication request (`Except.error` models an HTTP error raised by
`raise_for_status`, `Except.ok` carries `response.json()`). -/
def getJwtToken (cache : Json) (refresh : Bool) (openid : Option String)
    (net : Except Unit Json) : TokenStep :=
  if cache.isNull || refresh then
    if !(strTruthy openid) then
      ⟨TokenResult.configError, cache, false⟩
    else
      match net with
      | .error _ => ⟨TokenResult.httpError, cache, true⟩
      | .ok d =>
        if authCheckFails d then
          ⟨TokenResult.authError (d.getD "msg" (Json.str "未知错误")), cache, true⟩
        else
          let t := extractToken d
          ⟨TokenResult.ok t, t, true⟩
  else
    ⟨TokenResult.ok cache, cache, false⟩

/-- Number of authentication network calls made by two sequential
`_get_jwt_token` calls with `refresh=False`, the second starting from the
cache state the first left behind. -/
def twoCallNetworkCount (cache : Json) (openid : Option String)
    (net1 net2 : Except Unit Json) : Nat :=
  let s1 := getJwtToken cache false openid net1
  let s2 := getJwtToken s1.newCache false openid net2
  (if s1.networkCalled then 1 else 0) + (if s2.networkCalled then 1 else 0)

/-- A well-formed identity-backend response carrying a token, used as a
concrete successful authentication exchange. -/
def goodAuthResponse : Json :=
  Json.obj [("code", Json.str "0000"), ("msg", Json.str "success"),
    ("data", Json.obj [("restToken", Json.obj [("token", Json.str "jwt-abc")])])]

/-- A response that passes the success check of school.py line 107 although
`data.restToken` has no `token` key: `code` is `"0000"`, `data` and
`data.restToken` are non-empty dicts. -/
def tokenlessAuthResponse : Json :=
  Json.obj [("code", Json.str "0000"), ("msg", Json.str "success"),
    ("data", Json.obj [("restToken", Json.obj [("expire", Json.str "20250101")])])]

/-- A response whose `data.restToken.token` is present but the empty
string. -/
def emptyTokenAuthResponse : Json :=
  Json.obj [("code", Json.str "0000"), ("msg", Json.str "success"),
    ("data", Json.obj [("restToken", Json.obj [("token", Json.str "")])])]

/-- The module-import-time configuration checks run at process startup
(server.py imports sends.py then school.py): sends.py lines 17-19 check
`SENDS_API_TOKEN`, school.py lines 12-14 check `STUDENT_ID`; each raises a
`ValueError` when the variable is absent or empty.  No other configuration
value is checked at startup. -/
def startupCheck (sendsApiToken studentId : Option String) : Except String Unit :=
  if !(strTruthy sendsApiToken) then
    Except.error "请在.env文件中设置SENDS_API_TOKEN"
  else if !(strTruthy studentId) then
    Except.error "请在.env文件中设置STUDENT_ID"
  else
    Except.ok ()

/-- The per-instance state set by `SchoolInfoService.__init__` (school.py
lines 22-31): the school year and semester computed from the construction
date and stored on the instance (the singleton is built once at module
import). -/
structure SchoolInfoService where
  currentSchoolYear : String
  currentSemester : String

/-- `SchoolInfoService.__init__` at a construction date with the given year
and month: stores `_get_current_semester()` of that date. -/
def SchoolInfoService.init (year month : Nat) : SchoolInfoService :=
  ⟨(SchoolInfoService.getCurrentSemester year month).1,
   (SchoolInfoService.getCurrentSemester year month).2⟩

/-- Query-parameter assembly of `SchoolInfoService.get_grade` (school.py
lines 230-247): an omitted school year or semester is replaced by the value
stored on the instance; a caller-supplied value is forwarded unchanged. -/
def SchoolInfoService.gradeParams (svc : SchoolInfoService) (studentId : String)
    (schoolYear semester : Option String) : List (String × String) :=
  let schoolYear :=
    match schoolYear with
    | none => svc.currentSchoolYear
    | some v => v
  let semester :=
    match semester with
    | none => svc.currentSemester
    | some v => v
  [("account", studentId), ("schoolYear", schoolYear), ("semester", semester)]

/-- Python `d[k] = v` on a dict modelled as a key-value list: overwrite the
value in place when the key exists, append otherwise. -/
def dictSet (d : List (String × String)) (k v : String) : List (String × String) :=
  if d.any (fun p => p.1 == k) then
    d.map (fun p => if p.1 == k then (k, v) else p)
  else
    d ++ [(k, v)]

/-- Python `d.update(e)`. -/
def dictUpdate (d e : List (String × String)) : List (String × String) :=
  e.foldl (fun acc p => dictSet acc p.1 p.2) d

/-- `SchoolInfoService._get_headers` (school.py lines 114-136): the fixed
content-type/accept pair, then `Authorization` set to the value returned by
`_get_jwt_token()` verbatim, then optional extra headers merged in.  Every
call site in school.py passes no extra headers. -/
def SchoolInfoService.getHeaders (token : String)
    (extraHeaders : Option (List (String × String))) : List (String × String) :=
  let headers := [("Content-Type", "application/json"),
                  ("Accept", "application/json;charset=utf-8")]
  let headers := dictSet headers "Authorization" token
  match extraHeaders with
  | some extra => dictUpdate headers extra
  | none => headers

/-- `StudentDataService._get_headers` (sends.py lines 33-37): the
third-party backend gets `"Bearer "` followed by its configured token. -/
def StudentDataService.getHeaders (apiToken : String) : List (String × String) :=
  [("Authorization", "Bearer " ++ apiToken), ("Content-Type", "application/json")]

/-- The uniform error object built in every `except` block of school.py:
`{"code": "9999", "msg": msg, "data": None}`. -/
def failureJson (msg : String) : Json :=
  Json.obj [("code", Json.str "9999"), ("msg", Json.str msg), ("data", Json.null)]

/-- `SchoolInfoService.get_empty_classroom_count` (school.py lines 138-169),
outcome shape: `auth` is the outcome of obtaining headers (token fetch
included), `resp` the outcome of the HTTP call; any exception `e` raised in
the `try` block is turned into the uniform error object with message
`"获取空教室统计失败: " + str(e)`, otherwise the response JSON is returned. -/
def SchoolInfoService.getEmptyClassroomCount (auth : Except String Unit)
    (resp : Except String Json) : Json :=
  match auth with
  | .error e => failureJson ("获取空教室统计失败: " ++ e)
  | .ok _ =>
    match resp with
    | .error e => failureJson ("获取空教室统计失败: " ++ e)
    | .ok body => body

/-- `SchoolInfoService.get_grade` (school.py lines 214-257), outcome shape:
as `get_empty_classroom_count` but with message `"获取课程成绩失败: " + str(e)`. -/
def SchoolInfoService.getGrade (auth : Except String Unit)
    (resp : Except String Json) : Json :=
  match auth with
  | .error e => failureJson ("获取课程成绩失败: " ++ e)
  | .ok _ =>
    match resp with
    | .error e => failureJson ("获取课程成绩失败: " ++ e)
    | .ok body => body

/-- The single failure characterization shared by the operation wrappers:
the `try` block fails iff header/token acquisition fails or the HTTP call
fails, with the corresponding exception text. -/
def tryBlockFails (auth : Except String Unit) (resp : Except String Json) :
    Option String :=
  match auth with
  | .error e => some e
  | .ok _ =>
    match resp with
    | .error e => some e
    | .ok _ => none

/-- Query-parameter assembly of `SchoolInfoService.get_rooms_timetable`
(school.py lines 561-609).  The positional parameter order of the source
signature is `(campus, build_name, room_id, school_year, semester)`; the
parameters are typed `Option String` because Python callers may pass `None`
into any slot.  An omitted (`none`) school year or semester is replaced by
the value stored on the instance. -/
def SchoolInfoService.roomsTimetableParams (svc : SchoolInfoService)
    (campus buildName roomId schoolYear semester : Option String) :
    List (String × Option String) :=
  let schoolYear :=
    match schoolYear with
    | none => some svc.currentSchoolYear
    | some v => some v
  let semester :=
    match semester with
    | none => some svc.currentSemester
    | some v => some v
  [("KKXN", schoolYear), ("KKXQ", semester), ("campus", campus),
   ("build", buildName), ("room", roomId)]

/-- The `get_rooms_timetable` MCP tool (server.py lines 331-358): its body
calls `school_info_service.get_rooms_timetable(school_year, semester,
campus, build_name, room_id)` — five positional arguments in that order,
landing in the service's `(campus, build_name, room_id, school_year,
semester)` slots. -/
def serverGetRoomsTimetable (svc : SchoolInfoService)
    (campus buildName roomId : String) (schoolYear semester : Option String) :
    List (String × Option String) :=
  SchoolInfoService.roomsTimetableParams svc schoolYear semester
    (some campus) (some buildName) (some roomId)

end HquSchoolMcp

namespace HquSchoolMcp

/-- C1: for every calendar date with year `Y` and month `M`, the resolver
returns school year `"Y-(Y+1)"` when `M ≥ 9` and `"(Y-1)-Y"` otherwise,
and semester SECOND (`"二"`, numeric 2) exactly when `2 ≤ M ≤ 7`, FIRST
(`"一"`, numeric 1) every other month. -/
theorem getCurrentSemester_spec (y m : Nat) :
    (SchoolInfoService.getCurrentSemester y m).1 =
      (if 9 ≤ m then toString y ++ "-" ++ toString (y + 1)
       else toString (y - 1) ++ "-" ++ toString y) ∧
    ((SchoolInfoService.getCurrentSemester y m).2 = "二" ↔ 2 ≤ m ∧ m ≤ 7) ∧
    ((SchoolInfoService.getCurrentSemester y m).2 = "一" ↔ ¬(2 ≤ m ∧ m ≤ 7)) ∧
    StudentDataService.getCurrentSemester y m =
      (if 9 ≤ m then toString y ++ "-" ++ toString (y + 1)
       else toString (y - 1) ++ "-" ++ toString y) ++ "-" ++
      (if 2 ≤ m ∧ m ≤ 7 then "2" else "1") := by
  have h2 : toString (2 : Nat) = "2" := rfl
  have h1 : toString (1 : Nat) = "1" := rfl
  unfold SchoolInfoService.getCurrentSemester StudentDataService.getCurrentSemester
  by_cases h : 2 ≤ m ∧ m ≤ 7 <;> by_cases h9 : 9 ≤ m <;> simp [h, h9, h2, h1]

/-- C9: the two independently implemented resolvers agree: the sends
resolver's result is the school resolver's academic year, `"-"`, and the
digit corresponding to the semester marker (`"一" ↦ 1`, `"二" ↦ 2`). -/
theorem resolvers_agree (y m : Nat) :
    StudentDataService.getCurrentSemester y m =
      (SchoolInfoService.getCurrentSemester y m).1 ++ "-" ++
      (if (SchoolInfoService.getCurrentSemester y m).2 = "二" then "2" else "1") := by
  have h2 : toString (2 : Nat) = "2" := rfl
  have h1 : toString (1 : Nat) = "1" := rfl
  unfold SchoolInfoService.getCurrentSemester StudentDataService.getCurrentSemester
  by_cases h : 2 ≤ m ∧ m ≤ 7 <;> simp [h, h2, h1]

/-- C2 counterexample: with a token already cached, two sequential
`get_token` calls with `force_refresh` false perform zero authentication
network calls, not exactly one as the claim states for every starting
cache state. -/
theorem twoCall_cached_zero_calls :
    twoCallNetworkCount (Json.str "jwt-old") (some "oid")
      (Except.ok goodAuthResponse) (Except.ok goodAuthResponse) = 0 ∧
    (0 : Nat) ≠ 1 :=
  ⟨rfl, by decide⟩

/-- C2 (amended): whenever a token is already cached and `force_refresh` is
false, `get_token` returns the cached token with no network call; and when
the cache starts empty, the subject identifier is configured, and the first
response passes the success check yielding a non-null token, two sequential
calls perform exactly one authentication network call. -/
theorem getJwtToken_cache_behavior (cache : Json) (openid : Option String)
    (net1 net2 : Except Unit Json) (d : Json)
    (hopen : strTruthy openid = true) :
    (cache.isNull = false →
      getJwtToken cache false openid net1 = ⟨TokenResult.ok cache, cache, false⟩) ∧
    (cache.isNull = true → net1 = Except.ok d → authCheckFails d = false →
      (extractToken d).isNull = false →
      twoCallNetworkCount cache openid net1 net2 = 1) := by
  constructor
  · intro hc
    simp [getJwtToken, hc]
  · intro hc hnet hchk htok
    simp [twoCallNetworkCount, getJwtToken, hc, hnet, hchk, hopen, htok]

/-- C2 witness: concrete run of the amended statement — empty cache, a
configured subject, a well-formed token response: exactly one network call
across two sequential `get_token` calls. -/
theorem getJwtToken_cache_behavior_witness :
    twoCallNetworkCount Json.null (some "oid")
      (Except.ok goodAuthResponse) (Except.ok goodAuthResponse) = 1 :=
  (getJwtToken_cache_behavior Json.null (some "oid")
      (Except.ok goodAuthResponse) (Except.ok goodAuthResponse)
      goodAuthResponse rfl).2 rfl rfl rfl rfl

/-- C3: with a previously cached token `"jwt-old"`, `force_refresh` true and
a response that passes the success check of school.py line 107 but carries
no `data.restToken.token` key, `_get_jwt_token` performs the network call
but then returns `None` normally — no AuthenticationFailure is raised — and
overwrites the previously cached token with `None`, contradicting the claim
that on failure the previous cached value is left unchanged. -/
theorem forceRefresh_tokenless_wipes_cache :
    getJwtToken (Json.str "jwt-old") true (some "oid")
      (Except.ok tokenlessAuthResponse) =
      ⟨TokenResult.ok Json.null, Json.null, true⟩ := rfl

/-- C4: a response whose `data.restToken` is a non-empty object without a
`token` key passes the success check, so `_get_jwt_token` returns `None`
without raising AuthenticationFailure; and a response whose token is the
empty string is stored in the cache, so an empty value is cached and reused. -/
theorem tokenless_response_not_rejected :
    getJwtToken Json.null false (some "oid") (Except.ok tokenlessAuthResponse) =
      ⟨TokenResult.ok Json.null, Json.null, true⟩ ∧
    getJwtToken Json.null false (some "oid") (Except.ok emptyTokenAuthResponse) =
      ⟨TokenResult.ok (Json.str ""), Json.str "", true⟩ :=
  ⟨rfl, rfl⟩

/-- C6 counterexample: with `SENDS_API_TOKEN` and `STUDENT_ID` set but the
identity-backend subject identifier `OPENID` absent, startup succeeds — no
fatal configuration error is raised at startup; the missing value only
surfaces when `get_token` is first called, which fails then without a
network call. -/
theorem startup_ignores_openid :
    startupCheck (some "sends-token") (some "student-id") = Except.ok () ∧
    getJwtToken Json.null false none (Except.ok goodAuthResponse) =
      ⟨TokenResult.configError, Json.null, false⟩ :=
  ⟨rfl, rfl⟩

/-- C6 (amended): the startup checks cover exactly `SENDS_API_TOKEN` and
`STUDENT_ID` — startup succeeds iff both are present and non-empty, and the
subject identifier is not consulted at startup at all; an absent or empty
`OPENID` is detected only inside `get_token`, which then fails with a
configuration error before any network call. -/
theorem startup_checks_spec (sendsApiToken studentId openid : Option String)
    (net : Except Unit Json) :
    (startupCheck sendsApiToken studentId = Except.ok () ↔
      strTruthy sendsApiToken = true ∧ strTruthy studentId = true) ∧
    (strTruthy openid = false →
      getJwtToken Json.null false openid net =
        ⟨TokenResult.configError, Json.null, false⟩) := by
  constructor
  · unfold startupCheck
    by_cases h1 : strTruthy sendsApiToken <;>
      by_cases h2 : strTruthy studentId <;> simp [h1, h2]
  · intro ho
    simp [getJwtToken, Json.isNull, ho]

/-- C6 witness: concrete run of the amended statement — both checked values
present, `OPENID` empty: startup succeeds and the first `get_token` call
fails with a configuration error and no network call. -/
theorem startup_checks_spec_witness :
    startupCheck (some "t") (some "s") = Except.ok () ∧
    getJwtToken Json.null false (some "") (Except.ok goodAuthResponse) =
      ⟨TokenResult.configError, Json.null, false⟩ :=
  ⟨(startup_checks_spec (some "t") (some "s") (some "")
      (Except.ok goodAuthResponse)).1.mpr ⟨rfl, rfl⟩,
   (startup_checks_spec (some "t") (some "s") (some "")
      (Except.ok goodAuthResponse)).2 rfl⟩

/-- C5 counterexample: a service constructed in January 2025 and serving a
request in March 2025 with both fields omitted supplies the stored
construction-time default semester `"一"`, while the resolver applied to
the request date yields `"二"` — the default is stored at construction, not
recomputed per request from the current wall-clock date. -/
theorem grade_default_is_stale :
    (SchoolInfoService.gradeParams (SchoolInfoService.init 2025 1) "sid"
        none none).lookup "semester" = some "一" ∧
    (SchoolInfoService.getCurrentSemester 2025 3).2 = "二" ∧
    ("一" : String) ≠ "二" :=
  ⟨rfl, rfl, by decide⟩

/-- C5 (amended): the default pair is computed once by `__init__` from the
construction date and stored on the instance; `get_grade` replaces an
omitted school year or semester by that stored value (the resolver's result
for the construction date, not the request date) and forwards a
caller-supplied value unchanged. -/
theorem gradeParams_defaults (cy cm : Nat) (sid : String)
    (sy sem : Option String) :
    (SchoolInfoService.gradeParams (SchoolInfoService.init cy cm) sid sy
        sem).lookup "schoolYear" =
      some (sy.getD (SchoolInfoService.getCurrentSemester cy cm).1) ∧
    (SchoolInfoService.gradeParams (SchoolInfoService.init cy cm) sid sy
        sem).lookup "semester" =
      some (sem.getD (SchoolInfoService.getCurrentSemester cy cm).2) := by
  cases sy <;> cases sem <;>
    simp [SchoolInfoService.gradeParams, SchoolInfoService.init, List.lookup]

/-- C7: academic-backend headers carry the fixed content-type/accept pair
and `Authorization` equal to the raw token with no scheme prefix, while the
third-party student-data backend's headers carry `Authorization` equal to
`"Bearer "` followed by its configured token. -/
theorem headers_auth_schemes (token apiToken : String) :
    (SchoolInfoService.getHeaders token none).lookup "Authorization" = some token ∧
    (SchoolInfoService.getHeaders token none).lookup "Content-Type" =
      some "application/json" ∧
    (SchoolInfoService.getHeaders token none).lookup "Accept" =
      some "application/json;charset=utf-8" ∧
    (StudentDataService.getHeaders apiToken).lookup "Authorization" =
      some ("Bearer " ++ apiToken) ∧
    (StudentDataService.getHeaders apiToken).lookup "Content-Type" =
      some "application/json" :=
  ⟨rfl, rfl, rfl, rfl, rfl⟩

/-- C8: whenever the downstream call of an academic-backend operation fails
— the header/token step or the HTTP call raises, authentication failure
included — the operation returns the uniform error object
`{code: "9999", msg: description, data: null}` instead of propagating the
exception. -/
theorem ops_uniform_error (auth : Except String Unit) (resp : Except String Json)
    (e : String) (h : tryBlockFails auth resp = some e) :
    SchoolInfoService.getEmptyClassroomCount auth resp =
      failureJson ("获取空教室统计失败: " ++ e) ∧
    SchoolInfoService.getGrade auth resp =
      failureJson ("获取课程成绩失败: " ++ e) ∧
    ∀ m, (failureJson m).get "code" = Json.str "9999" ∧
      (failureJson m).get "msg" = Json.str m ∧
      (failureJson m).get "data" = Json.null := by
  refine ⟨?_, ?_, ?_⟩
  · cases auth with
    | error e0 =>
      simp [tryBlockFails] at h
      simp [SchoolInfoService.getEmptyClassroomCount, h]
    | ok u =>
      cases resp with
      | error e0 =>
        simp [tryBlockFails] at h
        simp [SchoolInfoService.getEmptyClassroomCount, h]
      | ok body => simp [tryBlockFails] at h
  · cases auth with
    | error e0 =>
      simp [tryBlockFails] at h
      simp [SchoolInfoService.getGrade, h]
    | ok u =>
      cases resp with
      | error e0 =>
        simp [tryBlockFails] at h
        simp [SchoolInfoService.getGrade, h]
      | ok body => simp [tryBlockFails] at h
  · intro m
    exact ⟨rfl, rfl, rfl⟩

/-- C8 witness: concrete failed downstream call (authentication step raises
`"auth boom"`): both modelled operations return the uniform error object. -/
theorem ops_uniform_error_witness :
    SchoolInfoService.getEmptyClassroomCount (Except.error "auth boom")
        (Except.ok Json.null) =
      failureJson ("获取空教室统计失败: " ++ "auth boom") ∧
    SchoolInfoService.getGrade (Except.error "auth boom") (Except.ok Json.null) =
      failureJson ("获取课程成绩失败: " ++ "auth boom") :=
  ⟨(ops_uniform_error (Except.error "auth boom") (Except.ok Json.null)
      "auth boom" rfl).1,
   (ops_uniform_error (Except.error "auth boom") (Except.ok Json.null)
      "auth boom" rfl).2.1⟩

/-- C10: the `get_rooms_timetable` MCP tool forwards its five arguments
positionally in permuted order — its `school_year` lands in the service's
`campus` parameter, its `semester` in `build_name`, its `campus` in
`room_id`, its `build_name` in `school_year` (so it is sent as `KKXN`), and
its `room_id` in `semester` (sent as `KKXQ`). -/
theorem rooms_timetable_args_permuted (svc : SchoolInfoService)
    (campus buildName roomId : String) (schoolYear semester : Option String) :
    (serverGetRoomsTimetable svc campus buildName roomId schoolYear
        semester).lookup "campus" = some schoolYear ∧
    (serverGetRoomsTimetable svc campus buildName roomId schoolYear
        semester).lookup "build" = some semester ∧
    (serverGetRoomsTimetable svc campus buildName roomId schoolYear
        semester).lookup "room" = some (some campus) ∧
    (serverGetRoomsTimetable svc campus buildName roomId schoolYear
        semester).lookup "KKXN" = some (some buildName) ∧
    (serverGetRoomsTimetable svc campus buildName roomId schoolYear
        semester).lookup "KKXQ" = some (some roomId) :=
  ⟨rfl, rfl, rfl, rfl, rfl⟩

end HquSchoolMcp
